import Mathlib

/-!
Verification of the physics core of the LearnOpenGL three-body simulator.

The development shallowly embeds the C++ physics engine
(`src/9.ThreeBodyProblem/src/Physics/physics.cpp`, `includes/Physics/physics.h`,
`includes/body.h`, and the fixed-timestep accumulator loop of
`includes/application.h`) into Lean.  `float`/`double` arithmetic is modelled
by exact real arithmetic (`ℝ`); `glm::vec3` becomes `Vec3`; in-place mutation
of the body vector becomes explicit functional state passing, with the C++
iteration order preserved.  `glm::normalize`, `glm::length` and `glm::exp` use
`Real.sqrt` / `Real.exp`, so the development lives in a classical
(noncomputable) setting; concrete evaluations in witnesses are discharged with
`simp` / `norm_num`.
-/

open Classical

noncomputable section

namespace ThreeBody

/-- Model of `glm::vec3` (three `float` components, modelled over `ℝ`). -/
structure Vec3 where
  x : ℝ
  y : ℝ
  z : ℝ

/-- `glm::vec3(0)`. -/
def Vec3.zero : Vec3 := ⟨0, 0, 0⟩

instance : Add Vec3 := ⟨fun a b => ⟨a.x + b.x, a.y + b.y, a.z + b.z⟩⟩

instance : Sub Vec3 := ⟨fun a b => ⟨a.x - b.x, a.y - b.y, a.z - b.z⟩⟩

instance : Neg Vec3 := ⟨fun a => ⟨-a.x, -a.y, -a.z⟩⟩

/-- Scalar multiplication `c * v` (glm `float * vec3`). -/
instance : SMul ℝ Vec3 := ⟨fun c v => ⟨c * v.x, c * v.y, c * v.z⟩⟩

/-- Componentwise division by a scalar (glm `vec3 / float`). -/
instance : HDiv Vec3 ℝ Vec3 := ⟨fun v c => ⟨v.x / c, v.y / c, v.z / c⟩⟩

/-- `glm::dot`. -/
def Vec3.dot (a b : Vec3) : ℝ := a.x * b.x + a.y * b.y + a.z * b.z

/-- `glm::length` = √(v⋅v). -/
def Vec3.length (v : Vec3) : ℝ := Real.sqrt (v.dot v)

/-- `glm::normalize` = v / length(v).  (In the real-number model `1/0 = 0`,
so normalising the zero vector yields the zero vector, matching §7 of the
spec's requirement that a degenerate normalize must not propagate NaN.) -/
def Vec3.normalize (v : Vec3) : Vec3 := (1 / v.length) • v

theorem Vec3.ext_iff {a b : Vec3} : a = b ↔ a.x = b.x ∧ a.y = b.y ∧ a.z = b.z := by
  constructor
  · intro h; subst h; exact ⟨rfl, rfl, rfl⟩
  · rintro ⟨hx, hy, hz⟩
    cases a; cases b
    simp_all

@[simp] theorem Vec3.add_def (a b : Vec3) : a + b = ⟨a.x + b.x, a.y + b.y, a.z + b.z⟩ := rfl

@[simp] theorem Vec3.sub_def (a b : Vec3) : a - b = ⟨a.x - b.x, a.y - b.y, a.z - b.z⟩ := rfl

@[simp] theorem Vec3.neg_def (a : Vec3) : -a = ⟨-a.x, -a.y, -a.z⟩ := rfl

@[simp] theorem Vec3.smul_def (c : ℝ) (v : Vec3) : c • v = ⟨c * v.x, c * v.y, c * v.z⟩ := rfl

@[simp] theorem Vec3.div_def (v : Vec3) (c : ℝ) : v / c = ⟨v.x / c, v.y / c, v.z / c⟩ := rfl

@[simp] theorem Vec3.dot_def (a b : Vec3) :
    a.dot b = a.x * b.x + a.y * b.y + a.z * b.z := rfl

@[simp] theorem Vec3.zero_def : Vec3.zero = ⟨0, 0, 0⟩ := rfl

/-- Physical constants from `includes/Physics/physics.h`:
`GRAV_CONST = 6.67430e-11`. -/
def GRAV_CONST : ℝ := 667430 / 10 ^ 16

/-- `GRAV_FORCE = glm::vec3(0.0f, 0.0f, 0.0f)` — the uniform field force. -/
def GRAV_FORCE : Vec3 := Vec3.zero

/-- `EPSILON = 1e-3`. -/
def EPSILON : ℝ := 1 / 1000

/-- Model of `struct Body` (`includes/body.h`).  `source` embeds
`sphere.mesh.source` (the light/exempt flag), `radius` embeds
`sphere.geometry.Radius` — these are the only render-side fields that the
physics code reads.  `tracePoints` is render-only output and never touched by
the physics core, so it is omitted.  Field defaults follow the C++
initialisers (`Mass = 1.0f`, vectors zero; `Position` has no initialiser in
the struct, so it carries no default here). -/
structure Body where
  source : Bool := false
  radius : ℝ := 1
  Mass : ℝ := 1
  Position : Vec3
  Velocity : Vec3 := Vec3.zero
  Acceleration : Vec3 := Vec3.zero
  Force : Vec3 := Vec3.zero
  vForceAccumulator : Vec3 := Vec3.zero

/-- A throwaway body used as the default argument of `List.getD`. -/
def Body.dummy : Body := { Position := Vec3.zero }

/-- Engine configuration state: the `Speed` member, the (globally stored)
fixed timestep `dt`, and the `endSim` termination flag. -/
structure Physics where
  Speed : ℝ
  dt : ℝ
  endSim : Bool

/-- `Physics::Physics()` — Speed 3.0, dt = 1/60, endSim false. -/
def Physics.mkDefault : Physics := ⟨3, 1 / 60, false⟩

/-- `Physics::Physics(float speed)`. -/
def Physics.mkSpeed (speed : ℝ) : Physics := ⟨speed, 1 / 60, false⟩

/-- `Physics::Physics(float timeStep, float speed)`. -/
def Physics.mkCustom (timeStep speed : ℝ) : Physics := ⟨speed, timeStep, false⟩

/-- `Physics::shouldClose()`. -/
def shouldClose (p : Physics) : Bool := p.endSim

/-- `Physics::push` — adds the impulse directly to the velocity. -/
def push (b : Body) (impulse : Vec3) : Body :=
  { b with Velocity := b.Velocity + impulse }

/-- `Physics::isZero` — exact zero, or componentwise
`glm::epsilonEqual(v, 0, EPSILON)` (strict `|vᵢ| < ε`). -/
def isZero (v : Vec3) : Prop :=
  v = Vec3.zero ∨ (|v.x - 0| < EPSILON ∧ |v.y - 0| < EPSILON ∧ |v.z - 0| < EPSILON)

/-- `Physics::updateState` — acceleration from force, then semi-implicit
Euler: `Velocity += Acceleration * dt`, `Position += Velocity * dt`.
(Note: the `Speed` member of `Physics` does not occur in the source of
`updateState`; only `dt` does.) -/
def updateState (p : Physics) (b : Body) : Body :=
  let acc := b.Force / b.Mass
  let vel := b.Velocity + p.dt • acc
  let pos := b.Position + p.dt • vel
  { b with Acceleration := acc, Velocity := vel, Position := pos }

/-- `Physics::calculateDistanceSquare`. -/
def calculateDistanceSquare (sphereOne sphereTwo : Body) : ℝ :=
  let vDistance := sphereTwo.Position - sphereOne.Position
  vDistance.dot vDistance

/-- `Physics::calculateGravForce` — pairwise Newtonian attraction, skipped
entirely when the squared distance is below `minDistSq + EPSILON`.  Returns
the updated pair `(sphereOne, sphereTwo)`. -/
def calculateGravForce (sphereOne sphereTwo : Body) : Body × Body :=
  let fDistanceSq := calculateDistanceSquare sphereOne sphereTwo
  let minDistSq : ℝ := 1
  if fDistanceSq < minDistSq + EPSILON then (sphereOne, sphereTwo)
  else
    let vDirOne := Vec3.normalize (sphereTwo.Position - sphereOne.Position)
    let vDirTwo := -vDirOne
    let gravForce := GRAV_CONST * ((sphereOne.Mass * sphereTwo.Mass) / fDistanceSq)
    ({ sphereOne with vForceAccumulator := sphereOne.vForceAccumulator + gravForce • vDirOne },
     { sphereTwo with vForceAccumulator := sphereTwo.vForceAccumulator + gravForce • vDirTwo })

/-- `Physics::calculateForce` — total force is the uniform field force plus
the drained accumulator; the accumulator is then reset to zero.  (The source
also computes an unused local `vVelocityNormal = glm::normalize(Velocity)`.) -/
def calculateForce (b : Body) : Body :=
  let vGravForce := b.Mass • GRAV_FORCE
  let _vVelocityNormal := Vec3.normalize b.Velocity
  let vForceAccumulator := b.vForceAccumulator
  { b with Force := vGravForce + vForceAccumulator, vForceAccumulator := Vec3.zero }

/-- `Physics::onSurface` — `Position.y - radius <= surfaceY + EPSILON` with
`surfaceY = -2.0f`. -/
def onSurface (b : Body) : Prop :=
  b.Position.y - b.radius ≤ -2 + EPSILON

/-- `Physics::processSurfaceCollision` — restitution −0.8 on the vertical
velocity, clamp `Position.y` to `surfaceY + radius`, then snap the vertical
velocity to zero when its magnitude is below 0.1. -/
def processSurfaceCollision (b : Body) : Body :=
  let b₁ := { b with Velocity := { b.Velocity with y := b.Velocity.y * (-0.8) } }
  let b₂ := { b₁ with Position := { b₁.Position with y := -2 + b₁.radius } }
  if |b₂.Velocity.y| < 0.1 then { b₂ with Velocity := { b₂.Velocity with y := 0 } } else b₂

/-- `Physics::areColliding` — squared centre distance at most the squared
radius sum plus `EPSILON`. -/
def areColliding (sphereOne sphereTwo : Body) : Prop :=
  let d := sphereOne.Position - sphereTwo.Position
  let sqDistance := d.dot d
  let tRad := sphereOne.radius + sphereTwo.radius
  sqDistance ≤ tRad * tRad + EPSILON

/-- `Physics::processCollision` — position correction by half the overlap
along the collision normal, then velocity replacement.  The velocity formulas
are transcribed verbatim from the source: note the second one uses
`(sphereOne.Mass + sphereTwo.Mass)` as the coefficient of `sphereOne.Velocity`. -/
def processCollision (sphereOne sphereTwo : Body) : Body × Body :=
  let collisionNormal := Vec3.normalize (sphereTwo.Position - sphereOne.Position)
  let distance := Vec3.length (sphereTwo.Position - sphereOne.Position)
  let radiusSum := sphereOne.radius + sphereTwo.radius
  let overlap := radiusSum - distance
  let positions : Vec3 × Vec3 :=
    if 0 < overlap then
      let correction := (overlap / 2) • collisionNormal
      (sphereOne.Position - correction, sphereTwo.Position + correction)
    else (sphereOne.Position, sphereTwo.Position)
  let velOne := (((sphereOne.Mass - sphereTwo.Mass) • sphereOne.Velocity) +
      ((sphereTwo.Mass + sphereTwo.Mass) • sphereTwo.Velocity)) /
      (sphereOne.Mass + sphereTwo.Mass)
  let velTwo := (((sphereOne.Mass + sphereTwo.Mass) • sphereOne.Velocity) +
      ((sphereTwo.Mass - sphereOne.Mass) • sphereTwo.Velocity)) /
      (sphereOne.Mass + sphereTwo.Mass)
  ({ sphereOne with Position := positions.1, Velocity := velOne },
   { sphereTwo with Position := positions.2, Velocity := velTwo })

/-- The tail of `Physics::processFrame`'s outer iteration: exponential
velocity decay `v *= exp(-λ·dt)` with the hard-coded `vLambda = 0.0f`,
applied only when the velocity is not near zero. -/
def velocityDecay (p : Physics) (b : Body) : Body :=
  if ¬ isZero b.Velocity then
    let vLambda : ℝ := 0
    let vDecayFactor := Real.exp (-vLambda * p.dt)
    { b with Velocity := vDecayFactor • b.Velocity }
  else b

/-- The inner gravity loop of `processFrame` for the body at index `i`:
`for (j = i+1; ...) { if (bodies[j].source) continue; calculateGravForce }`.
The current body is threaded through as the accumulating first component;
the later bodies are the list. -/
def gravPass (b : Body) : List Body → Body × List Body
  | [] => (b, [])
  | sBody :: rest =>
    if sBody.source then
      let r := gravPass b rest
      (r.1, sBody :: r.2)
    else
      let g := calculateGravForce b sBody
      let r := gravPass g.1 rest
      (r.1, g.2 :: r.2)

/-- The inner collision loop of `processFrame` for the body at index `i`:
for each later body `colBody`, skip light sources, and when
`areColliding(colBody, body)` holds and not both velocities are near zero,
run `processCollision(colBody, body)`. -/
def collisionPass (b : Body) : List Body → Body × List Body
  | [] => (b, [])
  | colBody :: rest =>
    if colBody.source then
      let r := collisionPass b rest
      (r.1, colBody :: r.2)
    else if areColliding colBody b ∧ ¬ (isZero b.Velocity ∧ isZero colBody.Velocity) then
      let c := processCollision colBody b
      let r := collisionPass c.2 rest
      (r.1, c.1 :: r.2)
    else
      let r := collisionPass b rest
      (r.1, colBody :: r.2)

/-- One iteration of `processFrame`'s outer loop, acting on the body at the
current index together with the list of all later bodies (the only ones the
iteration can touch).  Mirrors the source line by line: zero `Force`, skip
light sources, gravity pass, `calculateForce`, `updateState`, surface
collision, pairwise collision pass, velocity decay. -/
def bodyStep (p : Physics) (body : Body) (rest : List Body) : Body × List Body :=
  let body₀ := { body with Force := Vec3.zero }
  if body₀.source then (body₀, rest)
  else
    let g := gravPass body₀ rest
    let body₁ := updateState p (calculateForce g.1)
    let body₂ := if onSurface body₁ then processSurfaceCollision body₁ else body₁
    let c := collisionPass body₂ g.2
    (velocityDecay p c.1, c.2)

theorem gravPass_length (b : Body) (l : List Body) :
    (gravPass b l).2.length = l.length := by
  induction l generalizing b with
  | nil => rfl
  | cons h t ih =>
    simp only [gravPass]
    split <;> simp [ih]

theorem collisionPass_length (b : Body) (l : List Body) :
    (collisionPass b l).2.length = l.length := by
  induction l generalizing b with
  | nil => rfl
  | cons h t ih =>
    simp only [collisionPass]
    split
    · simp [ih]
    · split <;> simp [ih]

theorem bodyStep_length (p : Physics) (b : Body) (rest : List Body) :
    (bodyStep p b rest).2.length = rest.length := by
  simp only [bodyStep]
  split
  · rfl
  · simp [collisionPass_length, gravPass_length]

/-- `Physics::processFrame` — the outer loop over the body vector, with the
in-place mutations of later entries made explicit. -/
def processFrame (p : Physics) : List Body → List Body
  | [] => []
  | body :: rest =>
    let s := bodyStep p body rest
    s.1 :: processFrame p s.2
termination_by bs => bs.length
decreasing_by simp [bodyStep_length]

/-! ### The fixed-timestep accumulator loop of `App::run`

`while (accumulator >= dt) { pEngine.processFrame(bodies); accumulator -= dt; }`

The loop is embedded with an explicit iteration budget (`drainAux`); `advance`
supplies a budget that is at least the number of iterations the C++ loop
actually executes (`drainAux_fuel` below proves the budget choice
irrelevant), so `advance` is exactly one frame's accumulate-then-drain.  The
physics step is a parameter `step : σ → σ`; `App::run` instantiates it with
`processFrame p` acting on the body list, and instantiating `σ` with a
product that carries a counter recovers the number of steps executed. -/

/-- The drain loop with an explicit iteration budget: while `dt ≤ acc`,
run one step and subtract `dt`. -/
def drainAux {σ : Type} (step : σ → σ) (dtv : ℝ) : ℕ → ℝ → σ → ℝ × σ
  | 0, acc, s => (acc, s)
  | n + 1, acc, s =>
    if dtv ≤ acc then drainAux step dtv n (acc - dtv) (step s) else (acc, s)

/-- One call of the driver loop body: add the frame's real delta to the
accumulator, then drain it in fixed `dt` chunks. -/
def advance {σ : Type} (step : σ → σ) (dtv : ℝ) (st : ℝ × σ) (realDelta : ℝ) : ℝ × σ :=
  let acc := st.1 + realDelta
  drainAux step dtv (⌊acc / dtv⌋₊ + 1) acc st.2

/-- A sequence of driver-loop calls with the given real deltas. -/
def advanceList {σ : Type} (step : σ → σ) (dtv : ℝ) (st : ℝ × σ) (ds : List ℝ) : ℝ × σ :=
  ds.foldl (advance step dtv) st

/-- `nth l i` — the `i`-th body, with a dummy out-of-range default. -/
def nth (l : List Body) (i : ℕ) : Body := l.getD i Body.dummy

/-- Total momentum `Σ mᵢ · vᵢ` of a body list. -/
def listMomentum (bs : List Body) : Vec3 :=
  bs.foldr (fun b acc => b.Mass • b.Velocity + acc) Vec3.zero

/-! ### Engine operations (for the termination-flag claim)

`Physics::processFrame` never assigns `endSim` (the lone `endSim = true`
statement in its collision branch is commented out in the source), and
`push`, `wait` and `cleanup` touch no engine state at all. -/

/-- The operations the engine exposes to the driver. -/
inductive EngineOp where
  | processFrame
  | push (idx : ℕ) (impulse : Vec3)
  | wait (sec : ℝ)
  | cleanup

/-- Effect of one engine operation on the engine configuration and the
driver's body list. -/
def applyOp (s : Physics × List Body) : EngineOp → Physics × List Body
  | .processFrame => (s.1, processFrame s.1 s.2)
  | .push i impulse => (s.1, s.2.set i (push (nth s.2 i) impulse))
  | .wait _ => s
  | .cleanup => s

/-! ### Spec-side comparison definitions (refinement targets only)

These two definitions follow the *spec's words*, not the source; they exist
solely to be compared against the source-derived definitions above. -/

/-- The integrator update as §4.2 of the spec states it:
`position += velocity · dt · speed`, the speed multiplier scaling positional
motion.  Compare with `updateState`, which is transcribed from the source. -/
def spec_updateState (p : Physics) (b : Body) : Body :=
  let acc := b.Force / b.Mass
  let vel := b.Velocity + p.dt • acc
  let pos := b.Position + (p.dt * p.Speed) • vel
  { b with Acceleration := acc, Velocity := vel, Position := pos }

/-- The second body's elastic-collision velocity as §4.3 of the spec states
it: `v₂' = (2m₁v₁ + (m₂−m₁)v₂)/(m₁+m₂)`.  Compare with the `velTwo` of
`processCollision`, which is transcribed from the source. -/
def spec_elasticVelTwo (m₁ m₂ : ℝ) (v₁ v₂ : Vec3) : Vec3 :=
  ((2 * m₁) • v₁ + (m₂ - m₁) • v₂) / (m₁ + m₂)

/-! ### Concrete probe bodies used in closed-form theorems and witnesses -/

/-- Unit-mass body at the origin moving along x. -/
def probeBody : Body := { Position := Vec3.zero, Velocity := ⟨1, 0, 0⟩ }

/-- Mass-1 body at the origin moving along x at speed 4 (collision probe). -/
def collisionProbeOne : Body :=
  { Position := Vec3.zero, Velocity := ⟨4, 0, 0⟩, Mass := 1, radius := 1 / 5 }

/-- Mass-3 body at rest one unit along x (collision probe). -/
def collisionProbeTwo : Body :=
  { Position := ⟨1, 0, 0⟩, Velocity := Vec3.zero, Mass := 3, radius := 1 / 5 }

/-- An exempt (light-source) body carrying a non-zero force accumulator. -/
def lightProbe : Body :=
  { source := true, Position := Vec3.zero, vForceAccumulator := ⟨1, 0, 0⟩ }

/-- A body with negative mass, as aggregate initialisation permits. -/
def negMassProbe : Body :=
  { Mass := -1, Position := Vec3.zero, Velocity := ⟨1, 0, 0⟩, radius := 1 / 10 }

/-- Mass-5 body at the origin (gravity-clamp probe). -/
def closeProbeOne : Body := { Position := Vec3.zero, Mass := 5 }

/-- Mass-7 body half a unit away (gravity-clamp probe). -/
def closeProbeTwo : Body := { Position := ⟨1 / 2, 0, 0⟩, Mass := 7 }

/-- Radius-1 body below the surface moving (2,−3,1) (surface probe). -/
def surfProbe : Body := { Position := ⟨0, -5, 0⟩, radius := 1, Velocity := ⟨2, -3, 1⟩ }

/-- Equal-mass head-on collision probes with velocities ±(2,0,0). -/
def xProbeOne : Body := { Position := Vec3.zero, Velocity := ⟨2, 0, 0⟩ }

/-- Second equal-mass head-on collision probe. -/
def xProbeTwo : Body := { Position := ⟨1, 0, 0⟩, Velocity := ⟨-2, 0, 0⟩ }

/-! ### The two-body specialisation of one physics step

On a two-body list `[b₁, b₂]` (both non-exempt) with all branch guards
failing, `processFrame` reduces to the two integrations below
(`processFrame_pair`). -/

/-- The first body after one two-body step (gravity pass against `b₂`, force
drain, integration). -/
def twoStepFirst (p : Physics) (b₁ b₂ : Body) : Body :=
  updateState p (calculateForce (calculateGravForce { b₁ with Force := Vec3.zero } b₂).1)

/-- The second body as it stands when its own iteration begins (after the
first body's gravity pass wrote into its accumulator). -/
def twoStepSecondInput (b₁ b₂ : Body) : Body :=
  (calculateGravForce { b₁ with Force := Vec3.zero } b₂).2

/-- The second body after one two-body step. -/
def twoStepSecond (p : Physics) (b₁ b₂ : Body) : Body :=
  updateState p (calculateForce { twoStepSecondInput b₁ b₂ with Force := Vec3.zero })

/-- All branch guards of a two-body `processFrame` step fail: neither body is
detected on the surface after its integration, and the post-integration
pairwise collision test does not fire (the "no collision occurs" hypothesis
of the conservation claim). -/
def twoBodyClean (p : Physics) (b₁ b₂ : Body) : Prop :=
  ¬ onSurface (twoStepFirst p b₁ b₂) ∧
  ¬ (areColliding (twoStepSecondInput b₁ b₂) (twoStepFirst p b₁ b₂) ∧
     ¬ (isZero (twoStepFirst p b₁ b₂).Velocity ∧
        isZero (twoStepSecondInput b₁ b₂).Velocity)) ∧
  ¬ onSurface (twoStepSecond p b₁ b₂)

/-- `twoBodyClean` lifted to the evolving body list. -/
def TwoClean (p : Physics) (bs : List Body) : Prop :=
  ∀ x y : Body, bs = [x, y] → twoBodyClean p x y

/-- First body of the two-body conservation witness. -/
def wTwoOne : Body :=
  { Position := Vec3.zero, Velocity := ⟨1, 0, 0⟩, Mass := 1, radius := 1 / 10 }

/-- Second body of the two-body conservation witness. -/
def wTwoTwo : Body :=
  { Position := ⟨1 / 2, 0, 0⟩, Mass := 1, radius := 1 / 10 }

/-! ### Structural lemmas about the embedded operations -/

@[simp] theorem Vec3.eta (v : Vec3) : (⟨v.x, v.y, v.z⟩ : Vec3) = v := rfl

@[simp] theorem Vec3.one_smul (v : Vec3) : (1 : ℝ) • v = v := by
  simp [Vec3.smul_def]

/-- The source hard-codes `vLambda = 0.0f`, so the decay factor is
`exp 0 = 1` and the decay step is the identity in exact arithmetic. -/
theorem velocityDecay_eq (p : Physics) (b : Body) : velocityDecay p b = b := by
  unfold velocityDecay
  split
  · simp
  · rfl

theorem calculateForce_eq (b : Body) :
    calculateForce b = { b with Force := b.Mass • GRAV_FORCE + b.vForceAccumulator,
                                vForceAccumulator := Vec3.zero } := rfl

theorem updateState_eq (p : Physics) (b : Body) :
    updateState p b =
      { b with Acceleration := b.Force / b.Mass,
               Velocity := b.Velocity + p.dt • (b.Force / b.Mass),
               Position := b.Position + p.dt • (b.Velocity + p.dt • (b.Force / b.Mass)) } := rfl

theorem grav_fst_source (a b : Body) : (calculateGravForce a b).1.source = a.source := by
  unfold calculateGravForce; dsimp only; split <;> rfl

theorem grav_fst_Mass (a b : Body) : (calculateGravForce a b).1.Mass = a.Mass := by
  unfold calculateGravForce; dsimp only; split <;> rfl

theorem grav_fst_radius (a b : Body) : (calculateGravForce a b).1.radius = a.radius := by
  unfold calculateGravForce; dsimp only; split <;> rfl

theorem grav_fst_Position (a b : Body) : (calculateGravForce a b).1.Position = a.Position := by
  unfold calculateGravForce; dsimp only; split <;> rfl

theorem grav_fst_Velocity (a b : Body) : (calculateGravForce a b).1.Velocity = a.Velocity := by
  unfold calculateGravForce; dsimp only; split <;> rfl

theorem grav_fst_Force (a b : Body) : (calculateGravForce a b).1.Force = a.Force := by
  unfold calculateGravForce; dsimp only; split <;> rfl

theorem grav_snd_source (a b : Body) : (calculateGravForce a b).2.source = b.source := by
  unfold calculateGravForce; dsimp only; split <;> rfl

theorem grav_snd_Mass (a b : Body) : (calculateGravForce a b).2.Mass = b.Mass := by
  unfold calculateGravForce; dsimp only; split <;> rfl

theorem grav_snd_radius (a b : Body) : (calculateGravForce a b).2.radius = b.radius := by
  unfold calculateGravForce; dsimp only; split <;> rfl

theorem grav_snd_Position (a b : Body) : (calculateGravForce a b).2.Position = b.Position := by
  unfold calculateGravForce; dsimp only; split <;> rfl

theorem grav_snd_Velocity (a b : Body) : (calculateGravForce a b).2.Velocity = b.Velocity := by
  unfold calculateGravForce; dsimp only; split <;> rfl

theorem grav_snd_Force (a b : Body) : (calculateGravForce a b).2.Force = b.Force := by
  unfold calculateGravForce; dsimp only; split <;> rfl

theorem collide_fst_source (a b : Body) : (processCollision a b).1.source = a.source := rfl

theorem collide_fst_Mass (a b : Body) : (processCollision a b).1.Mass = a.Mass := rfl

theorem collide_fst_radius (a b : Body) : (processCollision a b).1.radius = a.radius := rfl

theorem collide_fst_acc (a b : Body) :
    (processCollision a b).1.vForceAccumulator = a.vForceAccumulator := rfl

theorem collide_snd_source (a b : Body) : (processCollision a b).2.source = b.source := rfl

theorem collide_snd_Mass (a b : Body) : (processCollision a b).2.Mass = b.Mass := rfl

theorem collide_snd_radius (a b : Body) : (processCollision a b).2.radius = b.radius := rfl

theorem collide_snd_acc (a b : Body) :
    (processCollision a b).2.vForceAccumulator = b.vForceAccumulator := rfl

theorem surface_source (b : Body) : (processSurfaceCollision b).source = b.source := by
  unfold processSurfaceCollision; dsimp only; split <;> rfl

theorem surface_Mass (b : Body) : (processSurfaceCollision b).Mass = b.Mass := by
  unfold processSurfaceCollision; dsimp only; split <;> rfl

theorem surface_acc (b : Body) :
    (processSurfaceCollision b).vForceAccumulator = b.vForceAccumulator := by
  unfold processSurfaceCollision; dsimp only; split <;> rfl

theorem decay_source (p : Physics) (b : Body) : (velocityDecay p b).source = b.source := by
  rw [velocityDecay_eq]

theorem decay_Mass (p : Physics) (b : Body) : (velocityDecay p b).Mass = b.Mass := by
  rw [velocityDecay_eq]

theorem nth_cons_zero (b : Body) (l : List Body) : nth (b :: l) 0 = b := rfl

theorem nth_cons_succ (b : Body) (l : List Body) (i : ℕ) :
    nth (b :: l) (i + 1) = nth l i := rfl

/-- The gravity pass touches only accumulators of the later bodies: every
later body keeps its `source`, `Mass`, `radius`, `Position`, `Velocity`
and `Force`; exempt later bodies are untouched entirely. -/
theorem gravPass_nth (b : Body) (l : List Body) (i : ℕ) :
    (nth (gravPass b l).2 i).source = (nth l i).source ∧
    (nth (gravPass b l).2 i).Mass = (nth l i).Mass ∧
    (nth (gravPass b l).2 i).radius = (nth l i).radius ∧
    (nth (gravPass b l).2 i).Position = (nth l i).Position ∧
    (nth (gravPass b l).2 i).Velocity = (nth l i).Velocity ∧
    (nth (gravPass b l).2 i).Force = (nth l i).Force := by
  induction l generalizing b i with
  | nil => exact ⟨rfl, rfl, rfl, rfl, rfl, rfl⟩
  | cons h t ih =>
    simp only [gravPass]
    split
    · cases i with
      | zero => exact ⟨rfl, rfl, rfl, rfl, rfl, rfl⟩
      | succ j => simpa [nth_cons_succ] using ih b j
    · cases i with
      | zero =>
        simp only [nth_cons_zero]
        exact ⟨grav_snd_source .., grav_snd_Mass .., grav_snd_radius ..,
          grav_snd_Position .., grav_snd_Velocity .., grav_snd_Force ..⟩
      | succ j => simpa [nth_cons_succ] using ih (calculateGravForce b h).1 j

/-- Exempt later bodies are completely untouched by the gravity pass. -/
theorem gravPass_nth_exempt (b : Body) (l : List Body) (i : ℕ)
    (h : (nth l i).source = true) :
    nth (gravPass b l).2 i = nth l i := by
  induction l generalizing b i with
  | nil => rfl
  | cons hd t ih =>
    simp only [gravPass]
    split
    · cases i with
      | zero => rfl
      | succ j =>
        rw [nth_cons_succ] at h
        simpa [nth_cons_succ] using ih b j h
    · cases i with
      | zero =>
        rw [nth_cons_zero] at h
        rename_i hsrc
        exact absurd h (by simpa using hsrc)
      | succ j =>
        rw [nth_cons_succ] at h
        simpa [nth_cons_succ] using ih (calculateGravForce b hd).1 j h

/-- The collision pass keeps every later body's `source`, `Mass`, `radius`
and accumulator; exempt later bodies are untouched entirely. -/
theorem collisionPass_nth (b : Body) (l : List Body) (i : ℕ) :
    (nth (collisionPass b l).2 i).source = (nth l i).source ∧
    (nth (collisionPass b l).2 i).Mass = (nth l i).Mass ∧
    (nth (collisionPass b l).2 i).radius = (nth l i).radius ∧
    (nth (collisionPass b l).2 i).vForceAccumulator = (nth l i).vForceAccumulator := by
  induction l generalizing b i with
  | nil => exact ⟨rfl, rfl, rfl, rfl⟩
  | cons h t ih =>
    simp only [collisionPass]
    split
    · cases i with
      | zero => exact ⟨rfl, rfl, rfl, rfl⟩
      | succ j => simpa [nth_cons_succ] using ih b j
    · split
      · cases i with
        | zero =>
          simp only [nth_cons_zero]
          exact ⟨collide_fst_source .., collide_fst_Mass .., collide_fst_radius ..,
            collide_fst_acc ..⟩
        | succ j => simpa [nth_cons_succ] using ih (processCollision h b).2 j
      · cases i with
        | zero => exact ⟨rfl, rfl, rfl, rfl⟩
        | succ j => simpa [nth_cons_succ] using ih b j

/-- Exempt later bodies are completely untouched by the collision pass. -/
theorem collisionPass_nth_exempt (b : Body) (l : List Body) (i : ℕ)
    (h : (nth l i).source = true) :
    nth (collisionPass b l).2 i = nth l i := by
  induction l generalizing b i with
  | nil => rfl
  | cons hd t ih =>
    simp only [collisionPass]
    split
    · cases i with
      | zero => rfl
      | succ j =>
        rw [nth_cons_succ] at h
        simpa [nth_cons_succ] using ih b j h
    · split
      · cases i with
        | zero =>
          rw [nth_cons_zero] at h
          rename_i hsrc _
          exact absurd h (by simpa using hsrc)
        | succ j =>
          rw [nth_cons_succ] at h
          simpa [nth_cons_succ] using ih (processCollision hd b).2 j h
      · cases i with
        | zero => rfl
        | succ j =>
          rw [nth_cons_succ] at h
          simpa [nth_cons_succ] using ih b j h

/-- The collision pass keeps the current body's `source`, `Mass`, `radius`
and accumulator. -/
theorem collisionPass_fst (b : Body) (l : List Body) :
    (collisionPass b l).1.source = b.source ∧
    (collisionPass b l).1.Mass = b.Mass ∧
    (collisionPass b l).1.radius = b.radius ∧
    (collisionPass b l).1.vForceAccumulator = b.vForceAccumulator := by
  induction l generalizing b with
  | nil => exact ⟨rfl, rfl, rfl, rfl⟩
  | cons h t ih =>
    simp only [collisionPass]
    split
    · exact ih b
    · split
      · refine ⟨?_, ?_, ?_, ?_⟩ <;>
          simp [(ih (processCollision h b).2).1, (ih (processCollision h b).2).2.1,
            (ih (processCollision h b).2).2.2.1, (ih (processCollision h b).2).2.2.2,
            collide_snd_source, collide_snd_Mass, collide_snd_radius, collide_snd_acc]
      · exact ih b

/-- The gravity pass keeps the current body's `source`, `Mass`, `radius`,
`Position`, `Velocity` and `Force`. -/
theorem gravPass_fst (b : Body) (l : List Body) :
    (gravPass b l).1.source = b.source ∧
    (gravPass b l).1.Mass = b.Mass ∧
    (gravPass b l).1.radius = b.radius ∧
    (gravPass b l).1.Position = b.Position ∧
    (gravPass b l).1.Velocity = b.Velocity ∧
    (gravPass b l).1.Force = b.Force := by
  induction l generalizing b with
  | nil => exact ⟨rfl, rfl, rfl, rfl, rfl, rfl⟩
  | cons h t ih =>
    simp only [gravPass]
    split
    · exact ih b
    · obtain ⟨i1, i2, i3, i4, i5, i6⟩ := ih (calculateGravForce b h).1
      exact ⟨by rw [i1, grav_fst_source], by rw [i2, grav_fst_Mass],
        by rw [i3, grav_fst_radius], by rw [i4, grav_fst_Position],
        by rw [i5, grav_fst_Velocity], by rw [i6, grav_fst_Force]⟩

theorem updateState_acc (p : Physics) (b : Body) :
    (updateState p b).vForceAccumulator = b.vForceAccumulator := rfl

theorem calculateForce_acc (b : Body) :
    (calculateForce b).vForceAccumulator = Vec3.zero := rfl

/-- An exempt (light-source) body's outer iteration only zeroes its `Force`
and leaves the later bodies alone (`continue` right after the assignment). -/
theorem bodyStep_exempt (p : Physics) (b : Body) (rest : List Body)
    (h : b.source = true) :
    bodyStep p b rest = ({ b with Force := Vec3.zero }, rest) := by
  unfold bodyStep
  dsimp only
  simp [h]

theorem bodyStep_fst_acc (p : Physics) (b : Body) (rest : List Body)
    (h : b.source = false) :
    (bodyStep p b rest).1.vForceAccumulator = Vec3.zero := by
  unfold bodyStep
  dsimp only
  simp only [h, Bool.false_eq_true, if_false]
  rw [velocityDecay_eq, (collisionPass_fst _ _).2.2.2]
  split
  · rw [surface_acc, updateState_acc, calculateForce_acc]
  · rw [updateState_acc, calculateForce_acc]

theorem bodyStep_fst_source (p : Physics) (b : Body) (rest : List Body) :
    (bodyStep p b rest).1.source = b.source := by
  unfold bodyStep
  dsimp only
  split
  · rfl
  · rw [velocityDecay_eq, (collisionPass_fst _ _).1]
    split
    · rw [surface_source]
      exact (gravPass_fst _ _).1
    · exact (gravPass_fst _ _).1

theorem bodyStep_fst_Mass (p : Physics) (b : Body) (rest : List Body) :
    (bodyStep p b rest).1.Mass = b.Mass := by
  unfold bodyStep
  dsimp only
  split
  · rfl
  · rw [velocityDecay_eq, (collisionPass_fst _ _).2.1]
    split
    · rw [surface_Mass]
      exact (gravPass_fst _ _).2.1
    · exact (gravPass_fst _ _).2.1

theorem bodyStep_nth_source (p : Physics) (b : Body) (rest : List Body) (j : ℕ) :
    (nth (bodyStep p b rest).2 j).source = (nth rest j).source := by
  unfold bodyStep
  dsimp only
  split
  · rfl
  · rw [(collisionPass_nth _ _ _).1, (gravPass_nth _ _ _).1]

theorem bodyStep_nth_Mass (p : Physics) (b : Body) (rest : List Body) (j : ℕ) :
    (nth (bodyStep p b rest).2 j).Mass = (nth rest j).Mass := by
  unfold bodyStep
  dsimp only
  split
  · rfl
  · rw [(collisionPass_nth _ _ _).2.1, (gravPass_nth _ _ _).2.1]

theorem bodyStep_nth_exempt (p : Physics) (b : Body) (rest : List Body) (j : ℕ)
    (h : (nth rest j).source = true) :
    nth (bodyStep p b rest).2 j = nth rest j := by
  unfold bodyStep
  dsimp only
  split
  · rfl
  · rw [collisionPass_nth_exempt, gravPass_nth_exempt _ _ _ h]
    rw [(gravPass_nth _ _ _).1]
    exact h

theorem processFrame_nth_Mass (p : Physics) (bs : List Body) (i : ℕ) :
    (nth (processFrame p bs) i).Mass = (nth bs i).Mass := by
  generalize hn : bs.length = n
  induction n generalizing bs i with
  | zero =>
    cases bs with
    | nil => rw [processFrame]
    | cons b t => simp at hn
  | succ n ih =>
    cases bs with
    | nil => simp at hn
    | cons b t =>
      rw [processFrame]
      cases i with
      | zero =>
        rw [nth_cons_zero, nth_cons_zero]
        exact bodyStep_fst_Mass ..
      | succ j =>
        rw [nth_cons_succ, nth_cons_succ]
        have hlen : (bodyStep p b t).2.length = n := by
          rw [bodyStep_length]; simpa using hn
        rw [ih _ j hlen, bodyStep_nth_Mass]

theorem processFrame_nth_source (p : Physics) (bs : List Body) (i : ℕ) :
    (nth (processFrame p bs) i).source = (nth bs i).source := by
  generalize hn : bs.length = n
  induction n generalizing bs i with
  | zero =>
    cases bs with
    | nil => rw [processFrame]
    | cons b t => simp at hn
  | succ n ih =>
    cases bs with
    | nil => simp at hn
    | cons b t =>
      rw [processFrame]
      cases i with
      | zero =>
        rw [nth_cons_zero, nth_cons_zero]
        exact bodyStep_fst_source ..
      | succ j =>
        rw [nth_cons_succ, nth_cons_succ]
        have hlen : (bodyStep p b t).2.length = n := by
          rw [bodyStep_length]; simpa using hn
        rw [ih _ j hlen, bodyStep_nth_source]

theorem processCollision_fst_Velocity (a b : Body) :
    (processCollision a b).1.Velocity =
      (((a.Mass - b.Mass) • a.Velocity) + ((b.Mass + b.Mass) • b.Velocity)) /
        (a.Mass + b.Mass) := rfl

theorem processCollision_snd_Velocity (a b : Body) :
    (processCollision a b).2.Velocity =
      (((a.Mass + b.Mass) • a.Velocity) + ((b.Mass - a.Mass) • b.Velocity)) /
        (a.Mass + b.Mass) := rfl

theorem processFrame_nth_acc_zero (p : Physics) (bs : List Body) (i : ℕ)
    (h : (nth bs i).source = false) :
    (nth (processFrame p bs) i).vForceAccumulator = Vec3.zero := by
  generalize hn : bs.length = n
  induction n generalizing bs i with
  | zero =>
    cases bs with
    | nil => rw [processFrame]; rfl
    | cons b t => simp at hn
  | succ n ih =>
    cases bs with
    | nil => simp at hn
    | cons b t =>
      rw [processFrame]
      cases i with
      | zero =>
        rw [nth_cons_zero] at h
        rw [nth_cons_zero]
        exact bodyStep_fst_acc _ _ _ h
      | succ j =>
        rw [nth_cons_succ] at h
        rw [nth_cons_succ]
        have hsrc : (nth (bodyStep p b t).2 j).source = false := by
          rw [bodyStep_nth_source]; exact h
        have hlen : (bodyStep p b t).2.length = n := by
          rw [bodyStep_length]; simpa using hn
        exact ih _ j hsrc hlen

theorem processFrame_nth_exempt (p : Physics) (bs : List Body) (i : ℕ)
    (h : (nth bs i).source = true) :
    nth (processFrame p bs) i = { nth bs i with Force := Vec3.zero } := by
  generalize hn : bs.length = n
  induction n generalizing bs i with
  | zero =>
    cases bs with
    | nil => simp [nth, Body.dummy] at h
    | cons b t => simp at hn
  | succ n ih =>
    cases bs with
    | nil => simp at hn
    | cons b t =>
      rw [processFrame]
      cases i with
      | zero =>
        rw [nth_cons_zero] at h
        rw [nth_cons_zero, bodyStep_exempt _ _ _ h]
        rfl
      | succ j =>
        rw [nth_cons_succ] at h
        rw [nth_cons_succ]
        have hsrc : (nth (bodyStep p b t).2 j).source = true := by
          rw [bodyStep_nth_source]; exact h
        have hlen : (bodyStep p b t).2.length = n := by
          rw [bodyStep_length]; simpa using hn
        rw [ih _ j hsrc hlen, bodyStep_nth_exempt _ _ _ _ h, nth_cons_succ]

/-- Evaluation of `processFrame` on a one-body list: a single non-exempt body
that does not land on the surface is just force-drained and integrated. -/
theorem processFrame_singleton (p : Physics) (b : Body) (h : b.source = false)
    (hsurf : ¬ onSurface (updateState p (calculateForce { b with Force := Vec3.zero }))) :
    processFrame p [b] = [updateState p (calculateForce { b with Force := Vec3.zero })] := by
  rw [processFrame]
  unfold bodyStep
  dsimp only
  simp only [h, Bool.false_eq_true, if_false, gravPass]
  rw [h] at hsurf
  rw [if_neg hsurf]
  simp only [collisionPass]
  rw [velocityDecay_eq, processFrame]

/-! ### Claims -/

/-- **C1** — the claim states that `updateState` advances the position by
`velocity · dt · speed` (default speed 3.0).  In the source the `Speed`
member is never read: `updateState` computes `Position += Velocity * dt`
only.  This theorem shows (i) `updateState` is entirely independent of the
`Speed` (and `endSim`) fields, and (ii) on a concrete unit-mass body moving
at velocity (1,0,0) with the default configuration, the position advances by
`1/60`, whereas the spec-modelled integrator `spec_updateState` (with the
claimed `speed = 3` scaling) advances it by `3 · 1/60` — the two disagree. -/
theorem C1_speed_multiplier_unused :
    (∀ (s₁ s₂ d : ℝ) (e₁ e₂ : Bool) (b : Body),
      updateState ⟨s₁, d, e₁⟩ b = updateState ⟨s₂, d, e₂⟩ b) ∧
    (updateState Physics.mkDefault probeBody).Position.x = 1 / 60 ∧
    (spec_updateState Physics.mkDefault probeBody).Position.x = 3 * (1 / 60) ∧
    (1 : ℝ) / 60 ≠ 3 * (1 / 60) := by
  refine ⟨fun _ _ _ _ _ _ => rfl, ?_, ?_, by norm_num⟩
  · norm_num [updateState, probeBody, Physics.mkDefault, GRAV_FORCE]
  · norm_num [spec_updateState, probeBody, Physics.mkDefault, GRAV_FORCE]

/-- **C2** — the claim states both elastic-collision formulas.  The first
(`v₁' = ((m₁−m₂)v₁ + 2m₂v₂)/(m₁+m₂)`) matches the source.  The second does
not: the source computes `(m₁+m₂)·v₁` where the claimed formula has
`2m₁·v₁`.  On bodies of masses 1 and 3 with velocities (4,0,0) and the zero
vector, the source assigns the second body velocity (4,0,0) while the
claimed formula yields (2,0,0). -/
theorem C2_collision_velocity_formulas :
    (∀ a b : Body, (processCollision a b).1.Velocity =
      (((a.Mass - b.Mass) • a.Velocity) + ((2 * b.Mass) • b.Velocity)) /
        (a.Mass + b.Mass)) ∧
    (processCollision collisionProbeOne collisionProbeTwo).2.Velocity = ⟨4, 0, 0⟩ ∧
    spec_elasticVelTwo collisionProbeOne.Mass collisionProbeTwo.Mass
      collisionProbeOne.Velocity collisionProbeTwo.Velocity = ⟨2, 0, 0⟩ ∧
    ((⟨4, 0, 0⟩ : Vec3) ≠ ⟨2, 0, 0⟩) := by
  refine ⟨fun a b => ?_, ?_, ?_, ?_⟩
  · rw [processCollision_fst_Velocity, Vec3.ext_iff]
    dsimp
    refine ⟨by ring, by ring, by ring⟩
  · rw [processCollision_snd_Velocity, Vec3.ext_iff]
    norm_num [collisionProbeOne, collisionProbeTwo]
  · rw [Vec3.ext_iff]
    norm_num [spec_elasticVelTwo, collisionProbeOne, collisionProbeTwo]
  · rw [Ne, Vec3.ext_iff]
    norm_num

/-- **C6** — two bodies of equal non-zero mass with velocities `v` and `−v`
exchange velocities exactly under `processCollision` (velocities only; the
position correction does not enter the velocity update).  The coefficient
slip recorded at C2 cancels when the masses are equal, so the claim holds. -/
theorem C6_equal_mass_exchange (m : ℝ) (b₁ b₂ : Body) (v : Vec3)
    (hm : m ≠ 0) (h₁ : b₁.Mass = m) (h₂ : b₂.Mass = m)
    (hv₁ : b₁.Velocity = v) (hv₂ : b₂.Velocity = -v) :
    (processCollision b₁ b₂).1.Velocity = -v ∧
    (processCollision b₁ b₂).2.Velocity = v := by
  have h2m : m + m ≠ 0 := by intro hc; exact hm (by linarith)
  rw [processCollision_fst_Velocity, processCollision_snd_Velocity, h₁, h₂, hv₁, hv₂]
  constructor <;>
    (rw [Vec3.ext_iff]; dsimp; refine ⟨?_, ?_, ?_⟩ <;> (field_simp; try ring))

/-- **C7** — when the squared centre distance is strictly below
`minDistSq + EPSILON` (= 1 + 1e-3), the gravity computation returns both
bodies entirely unchanged, for any masses. -/
theorem C7_gravity_clamp_skip (sphereOne sphereTwo : Body)
    (h : calculateDistanceSquare sphereOne sphereTwo < 1 + EPSILON) :
    calculateGravForce sphereOne sphereTwo = (sphereOne, sphereTwo) := by
  unfold calculateGravForce
  dsimp only
  rw [if_pos h]

/-- Witness for C7: masses 5 and 7 at squared distance 1/4. -/
theorem C7_gravity_clamp_skip_witness :
    calculateDistanceSquare closeProbeOne closeProbeTwo < 1 + EPSILON ∧
    calculateGravForce closeProbeOne closeProbeTwo = (closeProbeOne, closeProbeTwo) :=
  ⟨by norm_num [calculateDistanceSquare, closeProbeOne, closeProbeTwo, EPSILON],
   C7_gravity_clamp_skip _ _
     (by norm_num [calculateDistanceSquare, closeProbeOne, closeProbeTwo, EPSILON])⟩

/-- **C9** — surface response: vertical velocity is multiplied by −0.8,
`Position.y` is clamped to exactly `surfaceY + radius = -2 + radius`, the
resulting vertical velocity is snapped to exactly 0 when its magnitude is
below 0.1 (and kept otherwise), and the other position/velocity components
are unchanged. -/
theorem C9_surface_response (b : Body) (h : onSurface b) :
    (processSurfaceCollision b).Position.x = b.Position.x ∧
    (processSurfaceCollision b).Position.z = b.Position.z ∧
    (processSurfaceCollision b).Position.y = -2 + b.radius ∧
    (processSurfaceCollision b).Velocity.x = b.Velocity.x ∧
    (processSurfaceCollision b).Velocity.z = b.Velocity.z ∧
    (|b.Velocity.y * (-0.8)| < 0.1 → (processSurfaceCollision b).Velocity.y = 0) ∧
    (¬ |b.Velocity.y * (-0.8)| < 0.1 →
      (processSurfaceCollision b).Velocity.y = b.Velocity.y * (-0.8)) := by
  unfold processSurfaceCollision
  dsimp only
  split
  · rename_i hlt
    exact ⟨rfl, rfl, rfl, rfl, rfl, fun _ => rfl, fun hc => absurd hlt hc⟩
  · rename_i hge
    exact ⟨rfl, rfl, rfl, rfl, rfl, fun hc => absurd hc hge, fun _ => rfl⟩

/-- Witness for C9: a radius-1 body at height −5 moving (2,−3,1). -/
theorem C9_surface_response_witness :
    onSurface surfProbe ∧
    ((processSurfaceCollision surfProbe).Position.x = surfProbe.Position.x ∧
     (processSurfaceCollision surfProbe).Position.z = surfProbe.Position.z ∧
     (processSurfaceCollision surfProbe).Position.y = -2 + surfProbe.radius ∧
     (processSurfaceCollision surfProbe).Velocity.x = surfProbe.Velocity.x ∧
     (processSurfaceCollision surfProbe).Velocity.z = surfProbe.Velocity.z ∧
     (|surfProbe.Velocity.y * (-0.8)| < 0.1 →
       (processSurfaceCollision surfProbe).Velocity.y = 0) ∧
     (¬ |surfProbe.Velocity.y * (-0.8)| < 0.1 →
       (processSurfaceCollision surfProbe).Velocity.y = surfProbe.Velocity.y * (-0.8))) :=
  ⟨by norm_num [onSurface, surfProbe, EPSILON],
   C9_surface_response surfProbe (by norm_num [onSurface, surfProbe, EPSILON])⟩

theorem applyOp_fst (s : Physics × List Body) (op : EngineOp) : (applyOp s op).1 = s.1 := by
  cases op <;> rfl

theorem foldl_applyOp_fst (ops : List EngineOp) (s : Physics × List Body) :
    (ops.foldl applyOp s).1 = s.1 := by
  induction ops generalizing s with
  | nil => rfl
  | cons op t ih => rw [List.foldl_cons, ih, applyOp_fst]

/-- **C10** — every constructor initialises `endSim` to `false`, and no
engine operation (`processFrame`, `push`, `wait`, `cleanup`) ever sets it,
so `shouldClose` returns `false` after every operation sequence from every
constructor. -/
theorem C10_never_signals_termination :
    (∀ (bs : List Body) (ops : List EngineOp),
      shouldClose (ops.foldl applyOp (Physics.mkDefault, bs)).1 = false) ∧
    (∀ (speed : ℝ) (bs : List Body) (ops : List EngineOp),
      shouldClose (ops.foldl applyOp (Physics.mkSpeed speed, bs)).1 = false) ∧
    (∀ (timeStep speed : ℝ) (bs : List Body) (ops : List EngineOp),
      shouldClose (ops.foldl applyOp (Physics.mkCustom timeStep speed, bs)).1 = false) := by
  refine ⟨fun bs ops => ?_, fun sp bs ops => ?_, fun ts sp bs ops => ?_⟩ <;>
    rw [foldl_applyOp_fst] <;> rfl

/-- Counterexample to **C4** as stated: an exempt (light-source) body enters
a step with accumulator (1,0,0); `processFrame` hits `continue` right after
zeroing its `Force`, so the accumulator survives the step un-reset. -/
theorem C4_counterexample :
    (nth [lightProbe] 0).source = true ∧
    (nth (processFrame Physics.mkDefault [lightProbe]) 0).vForceAccumulator ≠ Vec3.zero := by
  refine ⟨rfl, ?_⟩
  rw [processFrame, bodyStep_exempt _ _ _ rfl]
  dsimp only
  rw [nth_cons_zero]
  simp [lightProbe, Vec3.ext_iff]

/-- **C4** (amended): in every physics step, every *non-exempt* body's
accumulator is drained and reset to the zero vector; exempt bodies are
skipped right after their `Force` is zeroed, so they come out of the step
with only `Force` changed (accumulator untouched). -/
theorem C4_accumulator_drain (p : Physics) (bs : List Body) (i : ℕ)
    (hi : i < bs.length) :
    ((nth bs i).source = false →
      (nth (processFrame p bs) i).vForceAccumulator = Vec3.zero) ∧
    ((nth bs i).source = true →
      nth (processFrame p bs) i = { nth bs i with Force := Vec3.zero }) :=
  ⟨processFrame_nth_acc_zero p bs i, processFrame_nth_exempt p bs i⟩

/-- Witness for C4 at a concrete non-exempt singleton list. -/
theorem C4_accumulator_drain_witness :
    0 < [probeBody].length ∧
    (((nth [probeBody] 0).source = false →
       (nth (processFrame Physics.mkDefault [probeBody]) 0).vForceAccumulator = Vec3.zero) ∧
     ((nth [probeBody] 0).source = true →
       nth (processFrame Physics.mkDefault [probeBody]) 0 =
         { nth [probeBody] 0 with Force := Vec3.zero })) :=
  ⟨by norm_num, C4_accumulator_drain Physics.mkDefault [probeBody] 0 (by norm_num)⟩

/-- Counterexample to **C8** as stated: `Body` is a plain aggregate and no
construction-time (or step-time) rejection/clamping of non-positive mass
exists — a body with `Mass = -1` flows through a full physics step, is
integrated (its position moves), and keeps its mass. -/
theorem C8_counterexample :
    negMassProbe.Mass ≤ 0 ∧
    (nth (processFrame Physics.mkDefault [negMassProbe]) 0).Mass = -1 ∧
    (nth (processFrame Physics.mkDefault [negMassProbe]) 0).Position ≠ negMassProbe.Position := by
  have hsurf : ¬ onSurface (updateState Physics.mkDefault
      (calculateForce { negMassProbe with Force := Vec3.zero })) := by
    norm_num [onSurface, updateState, calculateForce, negMassProbe, EPSILON, GRAV_FORCE,
      Physics.mkDefault]
  rw [processFrame_singleton _ _ rfl hsurf]
  refine ⟨by norm_num [negMassProbe], ?_, ?_⟩
  · simp [nth, updateState, calculateForce, negMassProbe]
  · simp [nth, updateState, calculateForce, negMassProbe, GRAV_FORCE, Physics.mkDefault,
      Vec3.ext_iff]

/-- **C8** (amended): no mass validation exists anywhere in the pipeline:
a physics step preserves every body's `Mass` verbatim (it never rejects,
clamps or rewrites it), so a body constructed with `Mass ≤ 0` reaches and
survives physics steps unchanged. -/
theorem C8_no_mass_guard (p : Physics) (bs : List Body) (i : ℕ)
    (hi : i < bs.length) :
    (nth (processFrame p bs) i).Mass = (nth bs i).Mass :=
  processFrame_nth_Mass p bs i

/-- Witness for C8 at the negative-mass probe. -/
theorem C8_no_mass_guard_witness :
    0 < [negMassProbe].length ∧
    (nth (processFrame Physics.mkDefault [negMassProbe]) 0).Mass =
      (nth [negMassProbe] 0).Mass :=
  ⟨by norm_num, C8_no_mass_guard Physics.mkDefault [negMassProbe] 0 (by norm_num)⟩

/-! ### The accumulator loop: closed form and split invariance -/

theorem drainAux_closed {σ : Type} (step : σ → σ) (dtv : ℝ) (hdt : 0 < dtv)
    (n : ℕ) (acc : ℝ) (s : σ) (hn : ⌊acc / dtv⌋₊ ≤ n) :
    drainAux step dtv n acc s =
      (acc - ⌊acc / dtv⌋₊ * dtv, step^[⌊acc / dtv⌋₊] s) := by
  induction n generalizing acc s with
  | zero =>
    have h0 : ⌊acc / dtv⌋₊ = 0 := Nat.le_zero.mp hn
    rw [drainAux, h0]
    simp
  | succ n ih =>
    rw [drainAux]
    split
    · rename_i hle
      have h1 : (1 : ℝ) ≤ acc / dtv := (one_le_div hdt).mpr hle
      have hfl : 1 ≤ ⌊acc / dtv⌋₊ := Nat.le_floor (by exact_mod_cast h1)
      obtain ⟨m, hm⟩ : ∃ m, ⌊acc / dtv⌋₊ = m + 1 := ⟨⌊acc / dtv⌋₊ - 1, by omega⟩
      have hshift : ⌊(acc - dtv) / dtv⌋₊ = m := by
        rw [sub_div, div_self (ne_of_gt hdt)]
        have hfs := Nat.floor_sub_nat (acc / dtv) 1
        rw [Nat.cast_one] at hfs
        rw [hfs]
        omega
      rw [ih _ _ (by rw [hshift]; omega), hshift, hm]
      rw [Prod.mk.injEq]
      constructor
      · push_cast
        ring
      · rw [← Function.iterate_succ_apply]
    · rename_i hgt
      have h0 : ⌊acc / dtv⌋₊ = 0 :=
        Nat.floor_eq_zero.mpr ((div_lt_one hdt).mpr (lt_of_not_le hgt))
      rw [h0]
      simp

theorem advance_closed {σ : Type} (step : σ → σ) (dtv : ℝ) (hdt : 0 < dtv)
    (st : ℝ × σ) (d : ℝ) :
    advance step dtv st d =
      ((st.1 + d) - ⌊(st.1 + d) / dtv⌋₊ * dtv, step^[⌊(st.1 + d) / dtv⌋₊] st.2) := by
  unfold advance
  dsimp only
  exact drainAux_closed step dtv hdt _ _ _ (Nat.le_succ _)

/-- Merging two consecutive `advance` calls (the second with a nonnegative
real delta) into one call with the summed delta. -/
theorem advance_advance {σ : Type} (step : σ → σ) (dtv : ℝ) (hdt : 0 < dtv)
    (st : ℝ × σ) (d₁ d₂ : ℝ) (hd₂ : 0 ≤ d₂) :
    advance step dtv (advance step dtv st d₁) d₂ = advance step dtv st (d₁ + d₂) := by
  rw [advance_closed step dtv hdt st d₁, advance_closed step dtv hdt _ d₂,
    advance_closed step dtv hdt st (d₁ + d₂)]
  dsimp only
  have hk : ⌊(st.1 + d₁) / dtv⌋₊ ≤ ⌊(st.1 + (d₁ + d₂)) / dtv⌋₊ := by
    apply Nat.floor_mono
    apply div_le_div_of_nonneg_right _ hdt.le
    linarith
  have harg : st.1 + d₁ - ⌊(st.1 + d₁) / dtv⌋₊ * dtv + d₂ =
      (st.1 + (d₁ + d₂)) - ⌊(st.1 + d₁) / dtv⌋₊ * dtv := by ring
  have hdiv : (st.1 + d₁ - ⌊(st.1 + d₁) / dtv⌋₊ * dtv + d₂) / dtv =
      (st.1 + (d₁ + d₂)) / dtv - ⌊(st.1 + d₁) / dtv⌋₊ := by
    rw [harg, sub_div, mul_div_assoc, div_self (ne_of_gt hdt), mul_one]
  have hfloor : ⌊(st.1 + d₁ - ⌊(st.1 + d₁) / dtv⌋₊ * dtv + d₂) / dtv⌋₊ =
      ⌊(st.1 + (d₁ + d₂)) / dtv⌋₊ - ⌊(st.1 + d₁) / dtv⌋₊ := by
    rw [hdiv]
    exact Nat.floor_sub_nat _ _
  rw [hfloor, Prod.mk.injEq]
  constructor
  · have hcast : ((⌊(st.1 + (d₁ + d₂)) / dtv⌋₊ - ⌊(st.1 + d₁) / dtv⌋₊ : ℕ) : ℝ) =
        (⌊(st.1 + (d₁ + d₂)) / dtv⌋₊ : ℝ) - ⌊(st.1 + d₁) / dtv⌋₊ := by
      push_cast [hk]
      ring
    rw [hcast]
    ring
  · rw [← Function.iterate_add_apply, Nat.sub_add_cancel hk]

/-- **C3** — frame-rate independence of the fixed-timestep accumulator loop:
for a positive fixed timestep, any way of splitting a total amount of real
time into a (nonempty) sequence of nonnegative per-call deltas yields exactly
the same final accumulator and the same final state as a single call with the
summed delta, for an arbitrary state type `σ` and an arbitrary step
function — in particular for `step = processFrame p` on the body list (same
final body state) and for `σ = ℕ`, `step = Nat.succ` (same number of physics
steps executed).  In particular one call with `3·dt` equals three calls with
`dt` each. -/
theorem C3_split_invariance {σ : Type} (step : σ → σ) (dtv : ℝ)
    (st : ℝ × σ) (ds : List ℝ) (hdt : 0 < dtv) (hds : ∀ d ∈ ds, 0 ≤ d)
    (hne : ds ≠ []) :
    advanceList step dtv st ds = advance step dtv st ds.sum := by
  induction ds generalizing st with
  | nil => exact absurd rfl hne
  | cons d t ih =>
    cases t with
    | nil => simp [advanceList, List.sum_cons]
    | cons d' t' =>
      have hds' : ∀ x ∈ d' :: t', 0 ≤ x := fun x hx => hds x (List.mem_cons_of_mem d hx)
      have hsum : 0 ≤ (d' :: t').sum := List.sum_nonneg hds'
      have : advanceList step dtv st (d :: d' :: t') =
          advanceList step dtv (advance step dtv st d) (d' :: t') := rfl
      rw [this, ih (advance step dtv st d) hds' (by simp),
        advance_advance step dtv hdt st d _ hsum]
      simp [List.sum_cons]

/-- Witness for C3: three calls of `1/60` versus one call of their sum, with
the physics step of the default engine on a singleton body list. -/
theorem C3_split_invariance_witness :
    (0 : ℝ) < 1 / 60 ∧ (∀ d ∈ [(1 : ℝ) / 60, 1 / 60, 1 / 60], 0 ≤ d) ∧
    ([(1 : ℝ) / 60, 1 / 60, 1 / 60] ≠ []) ∧
    advanceList (processFrame Physics.mkDefault) (1 / 60) (0, [probeBody])
        [(1 : ℝ) / 60, 1 / 60, 1 / 60] =
      advance (processFrame Physics.mkDefault) (1 / 60) (0, [probeBody])
        ([(1 : ℝ) / 60, 1 / 60, 1 / 60].sum) :=
  ⟨by norm_num, by intro d hd; fin_cases hd <;> norm_num, by simp,
   C3_split_invariance (processFrame Physics.mkDefault) (1 / 60) (0, [probeBody])
     [(1 : ℝ) / 60, 1 / 60, 1 / 60] (by norm_num)
     (by intro d hd; fin_cases hd <;> norm_num) (by simp)⟩

/-! ### Two-body momentum conservation -/

theorem listMomentum_pair (x y : Body) :
    listMomentum [x, y] = x.Mass • x.Velocity + (y.Mass • y.Velocity + Vec3.zero) := rfl

/-- Shared helper: the near-distance skip branch of the gravity computation. -/
theorem calculateGravForce_skip (a b : Body)
    (h : calculateDistanceSquare a b < 1 + EPSILON) :
    calculateGravForce a b = (a, b) := by
  unfold calculateGravForce
  dsimp only
  rw [if_pos h]

/-- In both branches of the gravity computation the two accumulators receive
exactly opposite contributions. -/
theorem grav_acc_opposite (a b : Body) :
    ∃ w : Vec3,
      (calculateGravForce a b).1.vForceAccumulator = a.vForceAccumulator + w ∧
      (calculateGravForce a b).2.vForceAccumulator = b.vForceAccumulator - w := by
  unfold calculateGravForce
  dsimp only
  split
  · refine ⟨Vec3.zero, ?_, ?_⟩ <;> (rw [Vec3.ext_iff]; simp)
  · refine ⟨(GRAV_CONST * (a.Mass * b.Mass / calculateDistanceSquare a b)) •
        Vec3.normalize (b.Position - a.Position), ?_, ?_⟩ <;>
      (rw [Vec3.ext_iff]; dsimp; refine ⟨by ring, by ring, by ring⟩)

theorem twoStepFirst_fields (p : Physics) (b₁ b₂ : Body) :
    (twoStepFirst p b₁ b₂).source = b₁.source ∧
    (twoStepFirst p b₁ b₂).Mass = b₁.Mass ∧
    (twoStepFirst p b₁ b₂).vForceAccumulator = Vec3.zero ∧
    (twoStepFirst p b₁ b₂).Velocity =
      b₁.Velocity + p.dt • ((b₁.Mass • GRAV_FORCE +
        (calculateGravForce { b₁ with Force := Vec3.zero } b₂).1.vForceAccumulator) /
          b₁.Mass) := by
  refine ⟨?_, ?_, rfl, ?_⟩
  · show (calculateGravForce { b₁ with Force := Vec3.zero } b₂).1.source = b₁.source
    rw [grav_fst_source]
  · show (calculateGravForce { b₁ with Force := Vec3.zero } b₂).1.Mass = b₁.Mass
    rw [grav_fst_Mass]
  · unfold twoStepFirst updateState calculateForce
    dsimp only
    rw [grav_fst_Velocity, grav_fst_Mass]

theorem twoStepSecond_fields (p : Physics) (b₁ b₂ : Body) :
    (twoStepSecond p b₁ b₂).source = b₂.source ∧
    (twoStepSecond p b₁ b₂).Mass = b₂.Mass ∧
    (twoStepSecond p b₁ b₂).vForceAccumulator = Vec3.zero ∧
    (twoStepSecond p b₁ b₂).Velocity =
      b₂.Velocity + p.dt • ((b₂.Mass • GRAV_FORCE +
        (calculateGravForce { b₁ with Force := Vec3.zero } b₂).2.vForceAccumulator) /
          b₂.Mass) := by
  refine ⟨?_, ?_, rfl, ?_⟩
  · show (calculateGravForce { b₁ with Force := Vec3.zero } b₂).2.source = b₂.source
    rw [grav_snd_source]
  · show (calculateGravForce { b₁ with Force := Vec3.zero } b₂).2.Mass = b₂.Mass
    rw [grav_snd_Mass]
  · unfold twoStepSecond twoStepSecondInput updateState calculateForce
    dsimp only
    rw [grav_snd_Velocity, grav_snd_Mass]

/-- A two-body `processFrame` step with all branch guards failing reduces to
the two integrations. -/
theorem processFrame_pair (p : Physics) (b₁ b₂ : Body)
    (h₁ : b₁.source = false) (h₂ : b₂.source = false)
    (hc : twoBodyClean p b₁ b₂) :
    processFrame p [b₁, b₂] = [twoStepFirst p b₁ b₂, twoStepSecond p b₁ b₂] := by
  obtain ⟨hs₁, hcol, hs₂⟩ := hc
  unfold twoStepFirst at hs₁
  unfold twoStepSecondInput twoStepFirst at hcol
  unfold twoStepSecond twoStepSecondInput at hs₂
  rw [processFrame]
  unfold bodyStep
  dsimp only
  rw [if_neg (by simp [h₁])]
  simp only [gravPass]
  rw [if_neg (by simp [h₂] : ¬ b₂.source = true)]
  dsimp only
  rw [if_neg hs₁]
  simp only [collisionPass]
  rw [if_neg (by rw [grav_snd_source]; simp [h₂]), if_neg hcol]
  dsimp only
  rw [velocityDecay_eq]
  rw [processFrame]
  unfold bodyStep
  dsimp only
  rw [if_neg (by rw [grav_snd_source]; simp [h₂])]
  simp only [gravPass]
  rw [if_neg hs₂]
  simp only [collisionPass]
  rw [velocityDecay_eq]
  rw [processFrame]
  unfold twoStepFirst twoStepSecond twoStepSecondInput
  rfl

/-- One clean two-body step: the step's shape, the preserved invariants, and
exact momentum conservation. -/
theorem pair_step (p : Physics) (b₁ b₂ : Body)
    (h₁ : b₁.source = false) (h₂ : b₂.source = false)
    (hm₁ : b₁.Mass ≠ 0) (hm₂ : b₂.Mass ≠ 0)
    (ha₁ : b₁.vForceAccumulator = Vec3.zero) (ha₂ : b₂.vForceAccumulator = Vec3.zero)
    (hc : twoBodyClean p b₁ b₂) :
    processFrame p [b₁, b₂] = [twoStepFirst p b₁ b₂, twoStepSecond p b₁ b₂] ∧
    (twoStepFirst p b₁ b₂).source = false ∧
    (twoStepSecond p b₁ b₂).source = false ∧
    (twoStepFirst p b₁ b₂).Mass = b₁.Mass ∧
    (twoStepSecond p b₁ b₂).Mass = b₂.Mass ∧
    (twoStepFirst p b₁ b₂).vForceAccumulator = Vec3.zero ∧
    (twoStepSecond p b₁ b₂).vForceAccumulator = Vec3.zero ∧
    listMomentum [twoStepFirst p b₁ b₂, twoStepSecond p b₁ b₂] =
      listMomentum [b₁, b₂] := by
  obtain ⟨w, hw₁, hw₂⟩ := grav_acc_opposite { b₁ with Force := Vec3.zero } b₂
  refine ⟨processFrame_pair p b₁ b₂ h₁ h₂ hc,
    by rw [(twoStepFirst_fields p b₁ b₂).1, h₁],
    by rw [(twoStepSecond_fields p b₁ b₂).1, h₂],
    (twoStepFirst_fields p b₁ b₂).2.1,
    (twoStepSecond_fields p b₁ b₂).2.1,
    (twoStepFirst_fields p b₁ b₂).2.2.1,
    (twoStepSecond_fields p b₁ b₂).2.2.1, ?_⟩
  rw [listMomentum_pair, listMomentum_pair,
    (twoStepFirst_fields p b₁ b₂).2.1, (twoStepSecond_fields p b₁ b₂).2.1,
    (twoStepFirst_fields p b₁ b₂).2.2.2, (twoStepSecond_fields p b₁ b₂).2.2.2,
    hw₁, hw₂]
  dsimp only
  rw [ha₁, ha₂]
  rw [Vec3.ext_iff]
  simp only [GRAV_FORCE, Vec3.zero_def, Vec3.smul_def, Vec3.add_def, Vec3.sub_def,
    Vec3.div_def]
  refine ⟨?_, ?_, ?_⟩ <;> (field_simp; ring)

/-- Iterated clean two-body steps keep the pair shape, the invariants and the
total momentum. -/
theorem pair_iter_inv (p : Physics) (b₁ b₂ : Body) (n : ℕ)
    (h₁ : b₁.source = false) (h₂ : b₂.source = false)
    (hm₁ : b₁.Mass ≠ 0) (hm₂ : b₂.Mass ≠ 0)
    (ha₁ : b₁.vForceAccumulator = Vec3.zero) (ha₂ : b₂.vForceAccumulator = Vec3.zero)
    (hclean : ∀ k < n, TwoClean p ((processFrame p)^[k] [b₁, b₂])) :
    ∃ c₁ c₂, (processFrame p)^[n] [b₁, b₂] = [c₁, c₂] ∧
      c₁.source = false ∧ c₂.source = false ∧
      c₁.Mass = b₁.Mass ∧ c₂.Mass = b₂.Mass ∧
      c₁.vForceAccumulator = Vec3.zero ∧ c₂.vForceAccumulator = Vec3.zero ∧
      listMomentum [c₁, c₂] = listMomentum [b₁, b₂] := by
  induction n with
  | zero => exact ⟨b₁, b₂, rfl, h₁, h₂, rfl, rfl, ha₁, ha₂, rfl⟩
  | succ n ih =>
    obtain ⟨c₁, c₂, heq, hc₁, hc₂, hM₁, hM₂, hA₁, hA₂, hmom⟩ :=
      ih (fun k hk => hclean k (Nat.lt_succ_of_lt hk))
    have hcl : twoBodyClean p c₁ c₂ := hclean n (Nat.lt_succ_self n) c₁ c₂ heq
    obtain ⟨hstep, hs₁, hs₂, hsM₁, hsM₂, hsA₁, hsA₂, hsmom⟩ :=
      pair_step p c₁ c₂ hc₁ hc₂ (by rw [hM₁]; exact hm₁) (by rw [hM₂]; exact hm₂)
        hA₁ hA₂ hcl
    refine ⟨twoStepFirst p c₁ c₂, twoStepSecond p c₁ c₂, ?_, hs₁, hs₂, ?_, ?_,
      hsA₁, hsA₂, ?_⟩
    · rw [Function.iterate_succ_apply', heq, hstep]
    · rw [hsM₁, hM₁]
    · rw [hsM₂, hM₂]
    · rw [hsmom, hmom]

/-- **C5** — for an isolated two-body system of non-exempt bodies with
non-zero masses and clean accumulators, as long as no step's surface or
pairwise-collision branch fires (the decay rate is the hard-coded 0), the
total momentum `m₁·v₁ + m₂·v₂` is exactly preserved across any number of
physics steps: the pairwise gravity contributions of a step are equal and
opposite and are integrated over the same `dt`. -/
theorem C5_two_body_momentum (p : Physics) (b₁ b₂ : Body) (n : ℕ)
    (h₁ : b₁.source = false) (h₂ : b₂.source = false)
    (hm₁ : b₁.Mass ≠ 0) (hm₂ : b₂.Mass ≠ 0)
    (ha₁ : b₁.vForceAccumulator = Vec3.zero) (ha₂ : b₂.vForceAccumulator = Vec3.zero)
    (hclean : ∀ k < n, TwoClean p ((processFrame p)^[k] [b₁, b₂])) :
    listMomentum ((processFrame p)^[n] [b₁, b₂]) = listMomentum [b₁, b₂] := by
  obtain ⟨c₁, c₂, heq, -, -, -, -, -, -, hmom⟩ :=
    pair_iter_inv p b₁ b₂ n h₁ h₂ hm₁ hm₂ ha₁ ha₂ hclean
  rw [heq, hmom]

/-- Witness for C5: one step on two unit-mass bodies half a unit apart
(within the gravity clamp, so the step is trivially clean). -/
theorem C5_two_body_momentum_witness :
    wTwoOne.source = false ∧ wTwoTwo.source = false ∧
    wTwoOne.Mass ≠ 0 ∧ wTwoTwo.Mass ≠ 0 ∧
    wTwoOne.vForceAccumulator = Vec3.zero ∧ wTwoTwo.vForceAccumulator = Vec3.zero ∧
    (∀ k < 1, TwoClean Physics.mkDefault
      ((processFrame Physics.mkDefault)^[k] [wTwoOne, wTwoTwo])) ∧
    listMomentum ((processFrame Physics.mkDefault)^[1] [wTwoOne, wTwoTwo]) =
      listMomentum [wTwoOne, wTwoTwo] := by
  have hskip : calculateGravForce { wTwoOne with Force := Vec3.zero } wTwoTwo =
      ({ wTwoOne with Force := Vec3.zero }, wTwoTwo) :=
    calculateGravForce_skip _ _
      (by norm_num [calculateDistanceSquare, wTwoOne, wTwoTwo, EPSILON])
  have hclean : ∀ k < 1, TwoClean Physics.mkDefault
      ((processFrame Physics.mkDefault)^[k] [wTwoOne, wTwoTwo]) := by
    intro k hk
    have hk0 : k = 0 := by omega
    subst hk0
    intro x y hxy
    rw [Function.iterate_zero_apply] at hxy
    injection hxy with hx hrest
    injection hrest with hy _
    subst hx
    subst hy
    refine ⟨?_, ?_, ?_⟩
    · unfold twoStepFirst
      rw [hskip]
      dsimp only
      norm_num [onSurface, updateState, calculateForce, wTwoOne, EPSILON, GRAV_FORCE,
        Physics.mkDefault]
    · rintro ⟨hA, -⟩
      unfold twoStepSecondInput twoStepFirst at hA
      rw [hskip] at hA
      dsimp only at hA
      norm_num [areColliding, updateState, calculateForce, wTwoOne, wTwoTwo, EPSILON,
        GRAV_FORCE, Physics.mkDefault] at hA
    · unfold twoStepSecond twoStepSecondInput
      rw [hskip]
      dsimp only
      norm_num [onSurface, updateState, calculateForce, wTwoTwo, EPSILON, GRAV_FORCE,
        Physics.mkDefault]
  exact ⟨rfl, rfl, by norm_num [wTwoOne], by norm_num [wTwoTwo], rfl, rfl, hclean,
    C5_two_body_momentum Physics.mkDefault wTwoOne wTwoTwo 1 rfl rfl
      (by norm_num [wTwoOne]) (by norm_num [wTwoTwo]) rfl rfl hclean⟩

/-- Witness for C6: unit masses, velocities ±(2,0,0). -/
theorem C6_equal_mass_exchange_witness :
    (1 : ℝ) ≠ 0 ∧ xProbeOne.Mass = 1 ∧ xProbeTwo.Mass = 1 ∧
    xProbeOne.Velocity = ⟨2, 0, 0⟩ ∧ xProbeTwo.Velocity = -(⟨2, 0, 0⟩ : Vec3) ∧
    (processCollision xProbeOne xProbeTwo).1.Velocity = -(⟨2, 0, 0⟩ : Vec3) ∧
    (processCollision xProbeOne xProbeTwo).2.Velocity = (⟨2, 0, 0⟩ : Vec3) := by
  have hv₂ : xProbeTwo.Velocity = -(⟨2, 0, 0⟩ : Vec3) := by
    rw [Vec3.ext_iff]
    norm_num [xProbeTwo]
  have h := C6_equal_mass_exchange 1 xProbeOne xProbeTwo ⟨2, 0, 0⟩ (by norm_num)
    rfl rfl rfl hv₂
  exact ⟨by norm_num, rfl, rfl, rfl, hv₂, h.1, h.2⟩

end ThreeBody

end
